import Mathlib

/-!
A shallow embedding of `src/src/Mutation.tsx` (the `Mutation` render-prop
component): its component state, constructor, prop/context reconfiguration,
render output, and the token-based staleness-suppression algorithm
(`runMutation` / `onCompletedMutation` / `onMutationError`), together with
theorems about the embedding.

Modelling conventions:
* result data has type `D`, Apollo errors have type `E` (both opaque);
* client handles are compared only by identity (`===`), so a client is a `Nat`
  and the ambient context carries an `Option Nat`;
* optional / possibly-`undefined` TypeScript fields are `Option`s;
* `invariant(cond, msg)` and the exceptions it throws become `Except String`;
* React `setState` with a partial object merges fields: each call site below
  writes exactly the fields the source passes and leaves the rest unchanged.
-/

namespace ReactApollo

/-- The operation kinds distinguished by the document parser
(`DocumentType` from `./parser`). -/
inductive DocumentType where
  | Query
  | Mutation
  | Subscription
deriving DecidableEq

/-- Modelled from the spec: the document-classification parser lives in
`./parser`, which is not under `src/`; per the spec its contract is
`classify(document) -> {Query|Mutation|Subscription}`. A document is therefore
modelled by the kind the classifier assigns to it. -/
structure DocumentNode where
  kind : DocumentType
deriving DecidableEq

/-- Modelled from the spec: `classify(document) -> OperationKind`
(`parser(mutation).type` in the source). -/
def parser (document : DocumentNode) : DocumentType :=
  document.kind

/-- The `invariant(cond, message)` helper: raises `message` when the
condition fails, otherwise does nothing. -/
def invariantThrow (cond : Prop) [Decidable cond] (message : String) : Except String Unit :=
  if cond then Except.ok () else Except.error message

/-- `MutationState` (lines 35-40): the React component state. `notCalled`
starts `true`; `error`, `data` and `loading` start `undefined` (`none`). -/
structure MutationState (D E : Type) where
  notCalled : Bool
  error : Option E := none
  data : Option D := none
  loading : Option Bool := none
deriving DecidableEq

/-- `initialState` (lines 42-44): only `notCalled` is present. -/
def initialState {D E : Type} : MutationState D E :=
  { notCalled := true }

/-- The mutable instance fields of a `Mutation` component: the stored
client handle (`this.client`), `this.mostRecentMutationId`, and `this.state`. -/
structure Runner (D E : Type) where
  client : Nat
  mostRecentMutationId : Nat
  state : MutationState D E
deriving DecidableEq

/-- The message of the document-kind invariant (lines 221-223): it names the
offending kind, `query` or `subscription`. -/
def mutationKindMessage (document : DocumentNode) : String :=
  "The <Mutation /> component requires a graphql mutation, but got a " ++
    (if parser document = DocumentType.Query then "query" else "subscription") ++ "."

/-- `verifyDocumentIsMutation` (lines 217-225): requires the parsed operation
kind to be `Mutation`, otherwise throws `mutationKindMessage`. -/
def verifyDocumentIsMutation (mutation : DocumentNode) : Except String Unit :=
  invariantThrow (parser mutation = DocumentType.Mutation) (mutationKindMessage mutation)

/-- The message of the missing-client invariant (lines 229-231). -/
def contextAbsentMessage : String :=
  "Could not find \"client\" in the context of Mutation. Wrap the root component in an <ApolloProvider>"

/-- `verifyContext` (lines 227-232): requires `context.client` to be present. -/
def verifyContext (contextClient : Option Nat) : Except String Unit :=
  invariantThrow (contextClient.isSome = true) contextAbsentMessage

/-- A fresh component instance: sequence counter `0`, `initialState`. -/
def freshRunner {D E : Type} (client : Nat) : Runner D E :=
  { client := client, mostRecentMutationId := 0, state := initialState }

/-- The constructor (lines 74-84): verifies the context client first, stores
it, then verifies the document kind, then initialises
`mostRecentMutationId := 0` and `state := initialState`. -/
def construct {D E : Type} (contextClient : Option Nat) (mutation : DocumentNode) :
    Except String (Runner D E) :=
  match verifyContext contextClient with
  | Except.error e => Except.error e
  | Except.ok _ =>
    match verifyDocumentIsMutation mutation with
    | Except.error e => Except.error e
    | Except.ok _ => Except.ok (freshRunner (contextClient.getD 0))

/-- `componentWillReceiveProps` (lines 86-100). `propsEqual` models the
`shallowEqual(this.props, nextProps)` result and `nextClient` models
`nextContext.client`. On a changed client the source runs
`this.setState(initialState)`, a React merge that writes only `notCalled`. -/
def componentWillReceiveProps {D E : Type} (r : Runner D E) (propsEqual : Bool)
    (nextMutation : DocumentNode) (nextClient : Nat) : Except String (Runner D E) :=
  if propsEqual ∧ r.client = nextClient then
    Except.ok r
  else
    match verifyDocumentIsMutation nextMutation with
    | Except.error e => Except.error e
    | Except.ok _ =>
      if r.client ≠ nextClient then
        Except.ok { r with client := nextClient, state := { r.state with notCalled := true } }
      else
        Except.ok r

/-- The result object handed to `children` (lines 106-112). -/
structure MutationResult (D E : Type) where
  loading : Option Bool
  data : Option D
  error : Option E
deriving DecidableEq

/-- `render` (lines 102-115): the result passed to the render function is
absent (`undefined`) exactly when `notCalled`. -/
def render {D E : Type} (r : Runner D E) : Option (MutationResult D E) :=
  if r.state.notCalled then none
  else some { loading := r.state.loading, data := r.state.data, error := r.state.error }

/-- `onStartMutation` (lines 152-161): `if (!this.state.loading)` is a JS
truthiness test, false only when `loading` is literally `true`; the guarded
`setState` writes all four fields. -/
def onStartMutation {D E : Type} (r : Runner D E) : Runner D E :=
  if r.state.loading = some true then
    r
  else
    { r with state :=
        { notCalled := false, error := none, data := none, loading := some true } }

/-- The synchronous prefix of `runMutation` (lines 117-121): start, then
increment `mostRecentMutationId` and capture the new call's token. -/
def runMutationStart {D E : Type} (r : Runner D E) : Runner D E × Nat :=
  let r1 := onStartMutation r
  let mutationId := r1.mostRecentMutationId + 1
  ({ r1 with mostRecentMutationId := mutationId }, mutationId)

/-- One trigger invocation's synchronous effect on the instance. -/
def triggerRun {D E : Type} (r : Runner D E) : Runner D E :=
  (runMutationStart r).1

/-- A dispatch of a caller-supplied callback: `onCompleted(data)` or
`onError(error)` (the source guards each with presence of the optional prop;
the dispatch itself is what is modelled). -/
inductive CbEvent (D E : Type) where
  | completed (data : D)
  | errored (error : E)
deriving DecidableEq

/-- `onCompletedMutation` (lines 163-188): writes state (a merge of
`loading := false` and `data`) only when the call's token equals
`mostRecentMutationId`; the completion callback is dispatched in either
branch, exactly once, with the call's own data. -/
def onCompletedMutation {D E : Type} (r : Runner D E) (data : D) (mutationId : Nat) :
    Runner D E × List (CbEvent D E) :=
  if r.mostRecentMutationId = mutationId then
    ({ r with state := { r.state with loading := some false, data := some data } },
      [CbEvent.completed data])
  else
    (r, [CbEvent.completed data])

/-- `onMutationError` (lines 190-215): symmetric to `onCompletedMutation`,
merging `loading := false` and `error` when the token matches, and always
dispatching the error callback exactly once with the call's own failure. -/
def onMutationError {D E : Type} (r : Runner D E) (error : E) (mutationId : Nat) :
    Runner D E × List (CbEvent D E) :=
  if r.mostRecentMutationId = mutationId then
    ({ r with state := { r.state with loading := some false, error := some error } },
      [CbEvent.errored error])
  else
    (r, [CbEvent.errored error])

/-- The settlement of one issued call: the remote client resolved with data,
or rejected with an error. -/
inductive Outcome (D E : Type) where
  | ok (data : D)
  | err (error : E)
deriving DecidableEq

/-- The tail of `runMutation` (lines 123-128): route a settled call, with its
captured token, to `onCompletedMutation` or `onMutationError`. -/
def resolveStep {D E : Type} (r : Runner D E) (mutationId : Nat) :
    Outcome D E → Runner D E
  | Outcome.ok d => (onCompletedMutation r d mutationId).1
  | Outcome.err e => (onMutationError r e mutationId).1

/-- The state merge a token-matching resolution performs. -/
def applySettle {D E : Type} : Outcome D E → MutationState D E → MutationState D E
  | Outcome.ok d, s => { s with loading := some false, data := some d }
  | Outcome.err e, s => { s with loading := some false, error := some e }

/-- `N` consecutive trigger invocations. -/
def doTriggers {D E : Type} : Nat → Runner D E → Runner D E
  | 0, r => r
  | n + 1, r => doTriggers n (triggerRun r)

/-- Settle the calls whose tokens are listed in `l`, in that arrival order,
each with the outcome `outcome` assigns to its token. -/
def resolveAll {D E : Type} (outcome : Nat → Outcome D E) :
    List Nat → Runner D E → Runner D E
  | [], r => r
  | tok :: rest, r => resolveAll outcome rest (resolveStep r tok (outcome tok))

/-- Observable State exposing exactly the given settlement as the current
outcome: succeeded-with-data, or failed-with-error. -/
def stateReflects {D E : Type} : Outcome D E → MutationState D E → Prop
  | Outcome.ok d, s =>
    s.notCalled = false ∧ s.loading = some false ∧ s.data = some d ∧ s.error = none
  | Outcome.err e, s =>
    s.notCalled = false ∧ s.loading = some false ∧ s.error = some e ∧ s.data = none

/-- A coherent starting point for a burst of triggers: if a call is visibly
in flight then no stale outcome fields linger and the state is marked called.
This holds for a freshly constructed instance and after any sequence of
triggers and resolutions. -/
def BurstStart {D E : Type} (r : Runner D E) : Prop :=
  r.state.loading = some true →
    r.state.notCalled = false ∧ r.state.data = none ∧ r.state.error = none

/-- The state effect of `componentWillReceiveProps` when the next document is
a mutation: on a changed client handle, store it and merge `initialState`
(only `notCalled` is written); otherwise nothing. -/
def receiveClient {D E : Type} (r : Runner D E) (nextClient : Nat) : Runner D E :=
  if r.client = nextClient then
    r
  else
    { r with client := nextClient, state := { r.state with notCalled := true } }

/-- An externally observable event in the life of one component instance. -/
inductive Ev (D E : Type) where
  | trigger
  | resolveOk (tok : Nat) (data : D)
  | resolveErr (tok : Nat) (error : E)
  | clientChange (nextClient : Nat)
deriving DecidableEq

/-- One event's effect on the instance together with the callbacks it
dispatches. -/
def stepEv {D E : Type} (r : Runner D E) : Ev D E → Runner D E × List (CbEvent D E)
  | Ev.trigger => (triggerRun r, [])
  | Ev.resolveOk tok d => onCompletedMutation r d tok
  | Ev.resolveErr tok e => onMutationError r e tok
  | Ev.clientChange c => (receiveClient r c, [])

/-- Run a list of events, collecting every dispatched callback in order. -/
def runEvents {D E : Type} (r : Runner D E) :
    List (Ev D E) → Runner D E × List (CbEvent D E)
  | [] => (r, [])
  | ev :: rest =>
    let p1 := stepEv r ev
    let p2 := runEvents p1.1 rest
    (p2.1, p1.2 ++ p2.2)

/-- The callback a settlement event must dispatch (none for other events). -/
def settleCb {D E : Type} : Ev D E → Option (CbEvent D E)
  | Ev.resolveOk _ d => some (CbEvent.completed d)
  | Ev.resolveErr _ e => some (CbEvent.errored e)
  | Ev.trigger => none
  | Ev.clientChange _ => none

/-- A component instance together with the tokens of its in-flight calls. -/
structure World (D E : Type) where
  runner : Runner D E
  inFlight : List Nat
deriving DecidableEq

/-- A freshly constructed instance with no calls in flight. -/
def initWorld {D E : Type} (client : Nat) : World D E :=
  { runner := freshRunner client, inFlight := [] }

/-- A trigger issues a call whose token is the incremented counter. -/
def stepTrigger {D E : Type} (w : World D E) : World D E :=
  { runner := triggerRun w.runner,
    inFlight := (w.runner.mostRecentMutationId + 1) :: w.inFlight }

/-- An in-flight call resolves successfully and leaves flight. -/
def stepResolveOk {D E : Type} (w : World D E) (tok : Nat) (d : D) : World D E :=
  { runner := (onCompletedMutation w.runner d tok).1, inFlight := w.inFlight.erase tok }

/-- An in-flight call rejects and leaves flight. -/
def stepResolveErr {D E : Type} (w : World D E) (tok : Nat) (e : E) : World D E :=
  { runner := (onMutationError w.runner e tok).1, inFlight := w.inFlight.erase tok }

/-- A reconfiguration that (possibly) changes the client handle; in-flight
calls are not cancelled. -/
def stepClientChange {D E : Type} (w : World D E) (c : Nat) : World D E :=
  { runner := receiveClient w.runner c, inFlight := w.inFlight }

/-- The worlds an instance can actually reach: each settlement consumes a
token that a trigger issued and that has not settled before. -/
inductive Reachable {D E : Type} : World D E → Prop where
  | init (c : Nat) : Reachable (initWorld c)
  | trigger {w : World D E} : Reachable w → Reachable (stepTrigger w)
  | resolveOk {w : World D E} (tok : Nat) (d : D) :
      tok ∈ w.inFlight → Reachable w → Reachable (stepResolveOk w tok d)
  | resolveErr {w : World D E} (tok : Nat) (e : E) :
      tok ∈ w.inFlight → Reachable w → Reachable (stepResolveErr w tok e)
  | clientChange {w : World D E} (c : Nat) : Reachable w → Reachable (stepClientChange w c)

theorem triggerRun_id {D E : Type} (r : Runner D E) :
    (triggerRun r).mostRecentMutationId = r.mostRecentMutationId + 1 := by
  simp only [triggerRun, runMutationStart, onStartMutation]
  split <;> rfl

theorem triggerRun_client {D E : Type} (r : Runner D E) :
    (triggerRun r).client = r.client := by
  simp only [triggerRun, runMutationStart, onStartMutation]
  split <;> rfl

theorem triggerRun_of_loading {D E : Type} {r : Runner D E}
    (h : r.state.loading = some true) :
    triggerRun r = { r with mostRecentMutationId := r.mostRecentMutationId + 1 } := by
  simp [triggerRun, runMutationStart, onStartMutation, h]

theorem triggerRun_of_not_loading {D E : Type} {r : Runner D E}
    (h : ¬r.state.loading = some true) :
    triggerRun r =
      { client := r.client, mostRecentMutationId := r.mostRecentMutationId + 1,
        state := { notCalled := false, error := none, data := none, loading := some true } } := by
  simp [triggerRun, runMutationStart, onStartMutation, h]

theorem onCompletedMutation_cb {D E : Type} (r : Runner D E) (d : D) (tok : Nat) :
    (onCompletedMutation r d tok).2 = [CbEvent.completed d] := by
  simp only [onCompletedMutation]
  split <;> rfl

theorem onMutationError_cb {D E : Type} (r : Runner D E) (e : E) (tok : Nat) :
    (onMutationError r e tok).2 = [CbEvent.errored e] := by
  simp only [onMutationError]
  split <;> rfl

theorem resolveStep_stale {D E : Type} {r : Runner D E} {tok : Nat}
    (h : ¬r.mostRecentMutationId = tok) (o : Outcome D E) :
    resolveStep r tok o = r := by
  cases o <;> simp [resolveStep, onCompletedMutation, onMutationError, h]

theorem resolveStep_current {D E : Type} {r : Runner D E} {tok : Nat}
    (h : r.mostRecentMutationId = tok) (o : Outcome D E) :
    resolveStep r tok o = { r with state := applySettle o r.state } := by
  cases o <;> simp [resolveStep, onCompletedMutation, onMutationError, applySettle, h]

theorem resolveStep_id {D E : Type} (r : Runner D E) (tok : Nat) (o : Outcome D E) :
    (resolveStep r tok o).mostRecentMutationId = r.mostRecentMutationId := by
  cases o <;> simp only [resolveStep, onCompletedMutation, onMutationError] <;> split <;> rfl

theorem resolveStep_notCalled {D E : Type} (r : Runner D E) (tok : Nat) (o : Outcome D E) :
    (resolveStep r tok o).state.notCalled = r.state.notCalled := by
  cases o <;> simp only [resolveStep, onCompletedMutation, onMutationError] <;> split <;> rfl

theorem doTriggers_id {D E : Type} (N : Nat) (r : Runner D E) :
    (doTriggers N r).mostRecentMutationId = r.mostRecentMutationId + N := by
  induction N generalizing r with
  | zero => rfl
  | succ n ih =>
    show (doTriggers n (triggerRun r)).mostRecentMutationId = _
    rw [ih, triggerRun_id]
    omega

theorem doTriggers_state_of_loading {D E : Type} {r : Runner D E}
    (h : r.state.loading = some true) (n : Nat) :
    (doTriggers n r).state = r.state := by
  induction n generalizing r with
  | zero => rfl
  | succ m ih =>
    show (doTriggers m (triggerRun r)).state = r.state
    rw [triggerRun_of_loading h]
    exact ih h

/-- After at least one trigger from a coherent start, Observable State is
exactly the pending state. -/
theorem doTriggers_state {D E : Type} {r : Runner D E} (hB : BurstStart r)
    {N : Nat} (hN : 0 < N) :
    (doTriggers N r).state =
      { notCalled := false, error := none, data := none, loading := some true } := by
  obtain ⟨n, rfl⟩ : ∃ n, N = n + 1 := ⟨N - 1, by omega⟩
  show (doTriggers n (triggerRun r)).state = _
  have h1 : (triggerRun r).state =
      { notCalled := false, error := none, data := none, loading := some true } := by
    by_cases hl : r.state.loading = some true
    · rw [triggerRun_of_loading hl]
      obtain ⟨h2, h3, h4⟩ := hB hl
      cases hs : r.state
      simp_all
    · rw [triggerRun_of_not_loading hl]
  rw [doTriggers_state_of_loading (by rw [h1]) n, h1]

theorem resolveAll_stale {D E : Type} {outcome : Nat → Outcome D E} {l : List Nat}
    {r : Runner D E} (h : ∀ tok ∈ l, ¬r.mostRecentMutationId = tok) :
    resolveAll outcome l r = r := by
  induction l generalizing r with
  | nil => rfl
  | cons a t ih =>
    show resolveAll outcome t (resolveStep r a (outcome a)) = r
    rw [resolveStep_stale (h a (List.mem_cons_self a t)) (outcome a)]
    exact ih fun tok ht => h tok (List.mem_cons_of_mem a ht)

/-- Settling a duplicate-free batch of tokens that contains the counter's
current value collapses to the single resolution of that current token. -/
theorem resolveAll_eq_single {D E : Type} {outcome : Nat → Outcome D E}
    {l : List Nat} {m : Nat} (hnd : l.Nodup) (hm : m ∈ l)
    {r : Runner D E} (hc : r.mostRecentMutationId = m) :
    resolveAll outcome l r = resolveStep r m (outcome m) := by
  induction l generalizing r with
  | nil => cases hm
  | cons a t ih =>
    show resolveAll outcome t (resolveStep r a (outcome a)) = _
    by_cases ha : a = m
    · subst ha
      have hstale : ∀ tok ∈ t, ¬(resolveStep r a (outcome a)).mostRecentMutationId = tok := by
        intro tok ht heq
        rw [resolveStep_id, hc] at heq
        exact (List.nodup_cons.mp hnd).1 (heq ▸ ht)
      exact resolveAll_stale hstale
    · rw [resolveStep_stale (fun heq => ha (by omega)) (outcome a)]
      exact ih (List.nodup_cons.mp hnd).2 (by
        rcases List.mem_cons.mp hm with h1 | h1
        · exact absurd h1.symm ha
        · exact h1) hc

theorem resolveAll_notCalled {D E : Type} (outcome : Nat → Outcome D E)
    (l : List Nat) (r : Runner D E) :
    (resolveAll outcome l r).state.notCalled = r.state.notCalled := by
  induction l generalizing r with
  | nil => rfl
  | cons a t ih =>
    show (resolveAll outcome t (resolveStep r a (outcome a))).state.notCalled = _
    rw [ih, resolveStep_notCalled]

/-- `componentWillReceiveProps` on a changed client with a valid mutation
document: store the client and merge `notCalled := true`. -/
theorem cwrp_client_change {D E : Type} {r : Runner D E} (propsEqual : Bool)
    {doc : DocumentNode} {nextClient : Nat}
    (hdoc : parser doc = DocumentType.Mutation) (hc : ¬nextClient = r.client) :
    componentWillReceiveProps r propsEqual doc nextClient =
      Except.ok { r with client := nextClient, state := { r.state with notCalled := true } } := by
  have hc2 : ¬r.client = nextClient := fun h => hc h.symm
  simp [componentWillReceiveProps, verifyDocumentIsMutation, invariantThrow, hdoc, hc2]

/-- The inductive invariant of reachable worlds: in-flight tokens are
distinct and bounded by the counter, and whenever an outcome field is
populated the state is settled (`loading = false`), the opposite outcome
field is clear, and the current token is no longer in flight. -/
def WorldInv {D E : Type} (w : World D E) : Prop :=
  w.inFlight.Nodup ∧
  (∀ t ∈ w.inFlight, t ≤ w.runner.mostRecentMutationId) ∧
  (w.runner.state.data ≠ none →
    w.runner.state.loading = some false ∧ w.runner.state.error = none ∧
    w.runner.mostRecentMutationId ∉ w.inFlight) ∧
  (w.runner.state.error ≠ none →
    w.runner.state.loading = some false ∧ w.runner.state.data = none ∧
    w.runner.mostRecentMutationId ∉ w.inFlight)

theorem worldInv_init {D E : Type} (c : Nat) : WorldInv (initWorld (D := D) (E := E) c) := by
  refine ⟨List.nodup_nil, ?_, ?_, ?_⟩ <;>
    simp [initWorld, freshRunner, initialState]

theorem worldInv_trigger {D E : Type} {w : World D E} (h : WorldInv w) :
    WorldInv (stepTrigger w) := by
  obtain ⟨hnd, hle, hdata, herr⟩ := h
  have hfresh : w.runner.mostRecentMutationId + 1 ∉ w.inFlight := by
    intro hmem
    have := hle _ hmem
    omega
  have hndc : ((w.runner.mostRecentMutationId + 1) :: w.inFlight).Nodup :=
    List.nodup_cons.mpr ⟨hfresh, hnd⟩
  have hlec : ∀ t ∈ (w.runner.mostRecentMutationId + 1) :: w.inFlight,
      t ≤ (triggerRun w.runner).mostRecentMutationId := by
    intro t ht
    rw [triggerRun_id]
    rcases List.mem_cons.mp ht with h1 | h1
    · omega
    · have := hle t h1
      omega
  by_cases hl : w.runner.state.loading = some true
  · have hd0 : w.runner.state.data = none := by
      by_contra hd
      have h2 := (hdata hd).1
      rw [hl] at h2
      simp at h2
    have he0 : w.runner.state.error = none := by
      by_contra he
      have h2 := (herr he).1
      rw [hl] at h2
      simp at h2
    refine ⟨hndc, hlec, ?_, ?_⟩ <;>
      simp [stepTrigger, triggerRun_of_loading hl, hd0, he0]
  · refine ⟨hndc, hlec, ?_, ?_⟩ <;>
      simp [stepTrigger, triggerRun_of_not_loading hl]

theorem worldInv_resolveOk {D E : Type} {w : World D E} (tok : Nat) (d : D)
    (hmem : tok ∈ w.inFlight) (h : WorldInv w) : WorldInv (stepResolveOk w tok d) := by
  obtain ⟨hnd, hle, hdata, herr⟩ := h
  have hnde : (w.inFlight.erase tok).Nodup := hnd.erase tok
  by_cases hc : w.runner.mostRecentMutationId = tok
  · have hd0 : w.runner.state.data = none := by
      by_contra hd
      exact (hdata hd).2.2 (hc ▸ hmem)
    have he0 : w.runner.state.error = none := by
      by_contra he
      exact (herr he).2.2 (hc ▸ hmem)
    have hout : w.runner.mostRecentMutationId ∉ w.inFlight.erase tok := by
      rw [hc]
      intro h2
      exact ((hnd.mem_erase_iff).mp h2).1 rfl
    refine ⟨hnde, ?_, ?_, ?_⟩ <;>
      simp_all [stepResolveOk, onCompletedMutation, hc]
    intro t ht
    exact hle t (List.mem_of_mem_erase ht)
  · have hr : (onCompletedMutation w.runner d tok).1 = w.runner := by
      simp [onCompletedMutation, hc]
    refine ⟨hnde, ?_, ?_, ?_⟩ <;> rw [stepResolveOk, hr]
    · intro t ht
      exact hle t (List.mem_of_mem_erase ht)
    · intro hd
      obtain ⟨h1, h2, h3⟩ := hdata hd
      exact ⟨h1, h2, fun hm => h3 (List.mem_of_mem_erase hm)⟩
    · intro he
      obtain ⟨h1, h2, h3⟩ := herr he
      exact ⟨h1, h2, fun hm => h3 (List.mem_of_mem_erase hm)⟩

theorem worldInv_resolveErr {D E : Type} {w : World D E} (tok : Nat) (e : E)
    (hmem : tok ∈ w.inFlight) (h : WorldInv w) : WorldInv (stepResolveErr w tok e) := by
  obtain ⟨hnd, hle, hdata, herr⟩ := h
  have hnde : (w.inFlight.erase tok).Nodup := hnd.erase tok
  by_cases hc : w.runner.mostRecentMutationId = tok
  · have hd0 : w.runner.state.data = none := by
      by_contra hd
      exact (hdata hd).2.2 (hc ▸ hmem)
    have he0 : w.runner.state.error = none := by
      by_contra he
      exact (herr he).2.2 (hc ▸ hmem)
    have hout : w.runner.mostRecentMutationId ∉ w.inFlight.erase tok := by
      rw [hc]
      intro h2
      exact ((hnd.mem_erase_iff).mp h2).1 rfl
    refine ⟨hnde, ?_, ?_, ?_⟩ <;>
      simp_all [stepResolveErr, onMutationError, hc]
    intro t ht
    exact hle t (List.mem_of_mem_erase ht)
  · have hr : (onMutationError w.runner e tok).1 = w.runner := by
      simp [onMutationError, hc]
    refine ⟨hnde, ?_, ?_, ?_⟩ <;> rw [stepResolveErr, hr]
    · intro t ht
      exact hle t (List.mem_of_mem_erase ht)
    · intro hd
      obtain ⟨h1, h2, h3⟩ := hdata hd
      exact ⟨h1, h2, fun hm => h3 (List.mem_of_mem_erase hm)⟩
    · intro he
      obtain ⟨h1, h2, h3⟩ := herr he
      exact ⟨h1, h2, fun hm => h3 (List.mem_of_mem_erase hm)⟩

theorem worldInv_clientChange {D E : Type} {w : World D E} (c : Nat)
    (h : WorldInv w) : WorldInv (stepClientChange w c) := by
  obtain ⟨hnd, hle, hdata, herr⟩ := h
  by_cases hc : w.runner.client = c
  · refine ⟨hnd, ?_, ?_, ?_⟩ <;> simp_all [stepClientChange, receiveClient, hc]
  · refine ⟨hnd, ?_, ?_, ?_⟩ <;> simp_all [stepClientChange, receiveClient, hc]

theorem reachable_worldInv {D E : Type} {w : World D E} (h : Reachable w) :
    WorldInv w := by
  induction h with
  | init c => exact worldInv_init c
  | trigger _ ih => exact worldInv_trigger ih
  | resolveOk tok d hmem _ ih => exact worldInv_resolveOk tok d hmem ih
  | resolveErr tok e hmem _ ih => exact worldInv_resolveErr tok e hmem ih
  | clientChange c _ ih => exact worldInv_clientChange c ih

/-- Claim C1: for every burst of `N` trigger invocations issued (from a
coherent start) before any of them resolves, and every interleaving (listed
as a permutation of the issued tokens) in which the calls settle, Observable
State after all `N` calls settle reflects exactly the outcome of the call
with the highest token, `r0.mostRecentMutationId + N`; and a resolving call
writes its settlement into state if and only if its token equals the
sequence counter's current value. -/
theorem highest_token_wins {D E : Type} (r0 : Runner D E) (hB : BurstStart r0)
    (N : Nat) (hN : 0 < N) (outcome : Nat → Outcome D E) (l : List Nat)
    (hl : l.Perm ((List.range N).map (fun i => r0.mostRecentMutationId + 1 + i))) :
    stateReflects (outcome (r0.mostRecentMutationId + N))
        (resolveAll outcome l (doTriggers N r0)).state
    ∧ ∀ (r : Runner D E) (tok : Nat) (o : Outcome D E),
        (tok = r.mostRecentMutationId → (resolveStep r tok o).state = applySettle o r.state)
        ∧ (¬tok = r.mostRecentMutationId → (resolveStep r tok o).state = r.state) := by
  constructor
  · have htoksnd : ((List.range N).map (fun i => r0.mostRecentMutationId + 1 + i)).Nodup :=
      List.Nodup.map (fun a b hab => by omega) (List.nodup_range N)
    have hlnd : l.Nodup := (hl.nodup_iff).mpr htoksnd
    have hmem : r0.mostRecentMutationId + N ∈
        (List.range N).map (fun i => r0.mostRecentMutationId + 1 + i) :=
      List.mem_map.mpr ⟨N - 1, List.mem_range.mpr (by omega), by omega⟩
    have hml : r0.mostRecentMutationId + N ∈ l := hl.mem_iff.mpr hmem
    have hcount : (doTriggers N r0).mostRecentMutationId = r0.mostRecentMutationId + N :=
      doTriggers_id N r0
    rw [resolveAll_eq_single hlnd hml hcount,
      resolveStep_current hcount (outcome (r0.mostRecentMutationId + N))]
    show stateReflects _ (applySettle _ (doTriggers N r0).state)
    rw [doTriggers_state hB hN]
    cases outcome (r0.mostRecentMutationId + N) <;> simp [stateReflects, applySettle]
  · intro r tok o
    refine ⟨fun h => ?_, fun h => ?_⟩
    · rw [resolveStep_current h.symm o]
    · rw [resolveStep_stale (fun h2 => h h2.symm) o]

/-- A concrete outcome assignment for the witness below: call 1 succeeds
with data 10, every later call fails with error 5. -/
def witnessOutcome : Nat → Outcome Nat Nat :=
  fun tok => if tok = 1 then Outcome.ok 10 else Outcome.err 5

/-- Witness for C1: two triggers from a fresh instance; the newest call
(token 2) settles first (with error 5) and the older call (token 1) arrives
late (with data 10); the final state reflects token 2's failure. -/
theorem highest_token_wins_witness :
    stateReflects (witnessOutcome ((freshRunner (D := Nat) (E := Nat) 1).mostRecentMutationId + 2))
        (resolveAll witnessOutcome [2, 1]
          (doTriggers 2 (freshRunner (D := Nat) (E := Nat) 1))).state
    ∧ ∀ (r : Runner Nat Nat) (tok : Nat) (o : Outcome Nat Nat),
        (tok = r.mostRecentMutationId → (resolveStep r tok o).state = applySettle o r.state)
        ∧ (¬tok = r.mostRecentMutationId → (resolveStep r tok o).state = r.state) :=
  highest_token_wins (freshRunner 1)
    (by intro h; simp [freshRunner, initialState] at h)
    2 (by decide) witnessOutcome [2, 1] (by decide)

/-- Claim C2: a call resolving (successfully or with a failure) while its
token differs from the sequence counter's current value leaves every field
of Observable State (`notCalled`, `loading`, `data`, `error`) unchanged. -/
theorem stale_resolution_leaves_state {D E : Type} (r : Runner D E) (tok : Nat)
    (h : ¬tok = r.mostRecentMutationId) (d : D) (e : E) :
    (onCompletedMutation r d tok).1.state = r.state
    ∧ (onMutationError r e tok).1.state = r.state := by
  have h2 : ¬r.mostRecentMutationId = tok := fun heq => h heq.symm
  constructor <;> simp [onCompletedMutation, onMutationError, h2]

/-- Witness for C2: a stale success and a stale failure (token 1 against
counter 2, after two triggers) change no state field. -/
theorem stale_resolution_leaves_state_witness :
    (onCompletedMutation (doTriggers 2 (freshRunner (D := Nat) (E := Nat) 1)) 10 1).1.state
        = (doTriggers 2 (freshRunner (D := Nat) (E := Nat) 1)).state
    ∧ (onMutationError (doTriggers 2 (freshRunner (D := Nat) (E := Nat) 1)) 5 1).1.state
        = (doTriggers 2 (freshRunner (D := Nat) (E := Nat) 1)).state :=
  stale_resolution_leaves_state (doTriggers 2 (freshRunner 1)) 1 (by decide) 10 5

/-- Claim C3: over any run of events, each settled call dispatches exactly
one caller callback — the completion callback with that call's own data on
success, the error callback with that call's own failure on rejection —
whether or not the call was stale, and no other event dispatches any. -/
theorem callbacks_exactly_once {D E : Type} (r : Runner D E) (evs : List (Ev D E)) :
    (runEvents r evs).2 = evs.filterMap settleCb := by
  induction evs generalizing r with
  | nil => rfl
  | cons ev rest ih =>
    show (stepEv r ev).2 ++ (runEvents (stepEv r ev).1 rest).2 = _
    rw [ih]
    cases ev with
    | trigger => rfl
    | resolveOk tok d =>
      rw [show (stepEv r (Ev.resolveOk tok d)).2 = [CbEvent.completed d] from
        onCompletedMutation_cb r d tok]
      rfl
    | resolveErr tok e =>
      rw [show (stepEv r (Ev.resolveErr tok e)).2 = [CbEvent.errored e] from
        onMutationError_cb r e tok]
      rfl
    | clientChange c => rfl

/-- The instance obtained by triggering a fresh instance on client 1 (one
call in flight, token 1) and then reconfiguring with client 2: the
`initialState` merge sets `notCalled := true` but keeps `loading = true`,
and the sequence counter stays 1. -/
def cexRunner : Runner Nat Nat :=
  { client := 2, mostRecentMutationId := 1,
    state := { notCalled := true, error := none, data := none, loading := some true } }

/-- Counterexample to C4 as stated: after the client changes while call
token 1 is in flight, the counter is not reset, so that pre-change call
still satisfies the token check when it resolves and its resolution does
write Observable State (`data` goes from `none` to `some 42`). -/
theorem old_client_resolution_writes_state :
    componentWillReceiveProps (triggerRun (freshRunner (D := Nat) (E := Nat) 1)) false
        { kind := DocumentType.Mutation } 2 = Except.ok cexRunner
    ∧ cexRunner.state.data = none
    ∧ (resolveStep cexRunner 1 (Outcome.ok 42)).state.data = some 42
    ∧ ¬(resolveStep cexRunner 1 (Outcome.ok 42)).state = cexRunner.state := by
  refine ⟨rfl, rfl, rfl, by decide⟩

/-- Claim C4 (amended): after a reconfiguration that changes the
executing-client identity, the reset to not-called is independent of any
outstanding token, and no sequence of call resolutions — stale or
token-matching — ever changes what the renderer observes: the render
function keeps receiving an absent result, so calls issued against the old
client are abandoned from the caller's perspective; however, a pre-change
call whose token still equals the (unreset) sequence counter does write the
`loading`/`data`/`error` fields of Observable State when it resolves. -/
theorem old_client_calls_stay_invisible {D E : Type} (r : Runner D E)
    (propsEqual : Bool) (doc : DocumentNode) (nextClient : Nat) (r2 : Runner D E)
    (hdoc : parser doc = DocumentType.Mutation) (hc : ¬nextClient = r.client)
    (hok : componentWillReceiveProps r propsEqual doc nextClient = Except.ok r2)
    (outcome : Nat → Outcome D E) (l : List Nat) :
    render (resolveAll outcome l r2) = none := by
  rw [cwrp_client_change propsEqual hdoc hc] at hok
  cases hok
  simp [render, resolveAll_notCalled]

/-- Witness for C4 (amended): the old client's call (token 1) resolves with
data 42 after the client change; the renderer still receives an absent
result. -/
theorem old_client_calls_stay_invisible_witness :
    render (resolveAll (fun _ => Outcome.ok 42) [1] cexRunner) = none :=
  old_client_calls_stay_invisible (triggerRun (freshRunner 1)) false
    { kind := DocumentType.Mutation } 2 cexRunner rfl (by decide) rfl
    (fun _ => Outcome.ok 42) [1]

/-- Claim C5: constructing with a document whose classified kind is not
`Mutation`, and likewise reconfiguring with one (the changed document makes
the props shallow-unequal), synchronously raises the configuration error
naming the offending kind — `query` or `subscription` — and construction
never yields an instance on which `trigger` would be callable. -/
theorem non_mutation_document_rejected {D E : Type} (c : Nat) (doc : DocumentNode)
    (h : ¬parser doc = DocumentType.Mutation) (r : Runner D E) (nextClient : Nat) :
    construct (D := D) (E := E) (some c) doc = Except.error (mutationKindMessage doc)
    ∧ componentWillReceiveProps r false doc nextClient
        = Except.error (mutationKindMessage doc)
    ∧ (∀ r2 : Runner D E, ¬construct (D := D) (E := E) (some c) doc = Except.ok r2)
    ∧ (parser doc = DocumentType.Query →
        mutationKindMessage doc =
          "The <Mutation /> component requires a graphql mutation, but got a query.")
    ∧ (parser doc = DocumentType.Subscription →
        mutationKindMessage doc =
          "The <Mutation /> component requires a graphql mutation, but got a subscription.") := by
  refine ⟨?_, ?_, ?_, ?_, ?_⟩
  · simp [construct, verifyContext, verifyDocumentIsMutation, invariantThrow, h]
  · simp [componentWillReceiveProps, verifyDocumentIsMutation, invariantThrow, h]
  · intro r2
    simp [construct, verifyContext, verifyDocumentIsMutation, invariantThrow, h]
  · intro hq
    simp [mutationKindMessage, hq]
  · intro hs
    have hq : ¬parser doc = DocumentType.Query := by
      rw [hs]
      decide
    simp [mutationKindMessage, hq]

/-- Witness for C5: a query document is rejected at construction and at
reconfiguration with the message naming `query`. -/
theorem non_mutation_document_rejected_witness :
    construct (D := Nat) (E := Nat) (some 0) { kind := DocumentType.Query }
        = Except.error (mutationKindMessage { kind := DocumentType.Query })
    ∧ componentWillReceiveProps (freshRunner (D := Nat) (E := Nat) 0) false
        { kind := DocumentType.Query } 0
        = Except.error (mutationKindMessage { kind := DocumentType.Query })
    ∧ (∀ r2 : Runner Nat Nat,
        ¬construct (D := Nat) (E := Nat) (some 0) { kind := DocumentType.Query }
          = Except.ok r2)
    ∧ (parser { kind := DocumentType.Query } = DocumentType.Query →
        mutationKindMessage { kind := DocumentType.Query } =
          "The <Mutation /> component requires a graphql mutation, but got a query.")
    ∧ (parser { kind := DocumentType.Query } = DocumentType.Subscription →
        mutationKindMessage { kind := DocumentType.Query } =
          "The <Mutation /> component requires a graphql mutation, but got a subscription.") :=
  non_mutation_document_rejected 0 { kind := DocumentType.Query } (by decide)
    (freshRunner 0) 0

/-- Claim C6: whenever the client handle observed on reconfiguration differs
from the stored one (and the document is still a mutation, so the
reconfiguration succeeds), the stored state is merged back to `notCalled`
and the render function receives an absent result, discarding any
previously visible success or failure, regardless of outstanding calls. -/
theorem client_change_resets_visible_state {D E : Type} (r : Runner D E)
    (propsEqual : Bool) (doc : DocumentNode) (nextClient : Nat)
    (hdoc : parser doc = DocumentType.Mutation) (hc : ¬nextClient = r.client) :
    componentWillReceiveProps r propsEqual doc nextClient =
      Except.ok { r with client := nextClient, state := { r.state with notCalled := true } }
    ∧ render { r with client := nextClient, state := { r.state with notCalled := true } }
        = none :=
  ⟨cwrp_client_change propsEqual hdoc hc, by simp [render]⟩

/-- An instance visibly succeeded with data 7 (client 1, one settled call). -/
def succeededRunner : Runner Nat Nat :=
  { client := 1, mostRecentMutationId := 1,
    state := { notCalled := false, error := none, data := some 7, loading := some false } }

/-- Witness for C6: an instance visibly succeeded with data 7 observes
client 2 on reconfiguration; the renderer then receives an absent result. -/
theorem client_change_resets_visible_state_witness :
    componentWillReceiveProps succeededRunner true { kind := DocumentType.Mutation } 2 =
      Except.ok { succeededRunner with
        client := 2,
        state := { succeededRunner.state with notCalled := true } }
    ∧ render { succeededRunner with
        client := 2,
        state := { succeededRunner.state with notCalled := true } } = none :=
  client_change_resets_visible_state succeededRunner true { kind := DocumentType.Mutation } 2
    rfl (by decide)

/-- Counterexample to C7 as stated: after a client change that happened
while a call was pending, the next trigger invocation does not make the
visible state loading — the state still has `notCalled = true` (the merge
kept `loading = true`, so `onStartMutation` skips its reset), and the
renderer keeps receiving an absent result. -/
theorem trigger_not_visibly_loading :
    componentWillReceiveProps (triggerRun (freshRunner (D := Nat) (E := Nat) 1)) false
        { kind := DocumentType.Mutation } 2 = Except.ok cexRunner
    ∧ render (triggerRun cexRunner) = none := by
  refine ⟨rfl, rfl⟩

/-- Claim C7 (amended): before the first trigger invocation the renderer
receives an absent result; every trigger invocation synchronously sets the
`loading` flag true; and the renderer observes a present, loading result
synchronously after the trigger except when the pre-trigger state is the
post-client-change-while-pending state (`notCalled = true` with `loading`
already `true`), in which case the renderer still receives an absent
result. -/
theorem trigger_sets_loading {D E : Type} (c : Nat) (r : Runner D E)
    (h : r.state.notCalled = false ∨ ¬r.state.loading = some true) :
    render (freshRunner (D := D) (E := E) c) = none
    ∧ (triggerRun r).state.loading = some true
    ∧ (render (triggerRun r)).map MutationResult.loading = some (some true) := by
  refine ⟨by simp [render, freshRunner, initialState], ?_, ?_⟩
  · by_cases hl : r.state.loading = some true
    · rw [triggerRun_of_loading hl]
      exact hl
    · rw [triggerRun_of_not_loading hl]
  · by_cases hl : r.state.loading = some true
    · have hnc : r.state.notCalled = false := by
        rcases h with h1 | h1
        · exact h1
        · exact absurd hl h1
      rw [triggerRun_of_loading hl]
      simp [render, hnc, hl]
    · rw [triggerRun_of_not_loading hl]
      simp [render]

/-- Witness for C7 (amended): triggering a fresh instance yields a present
result whose `loading` is `true`. -/
theorem trigger_sets_loading_witness :
    render (freshRunner (D := Nat) (E := Nat) 3) = none
    ∧ (triggerRun (freshRunner (D := Nat) (E := Nat) 0)).state.loading = some true
    ∧ (render (triggerRun (freshRunner (D := Nat) (E := Nat) 0))).map MutationResult.loading
        = some (some true) :=
  trigger_sets_loading 3 (freshRunner 0) (Or.inr (by decide))

/-- Claim C8: in every reachable Observable State the four state shapes
hold — a pending state (`loading = true`) carries no outcome fields, a
populated `data` comes with `loading = false` and a cleared `error`, a
populated `error` comes with `loading = false` and a cleared `data` — so
`data` and `error` are never both set as the current outcome. -/
theorem reachable_state_shapes {D E : Type} (w : World D E) (h : Reachable w) :
    (w.runner.state.loading = some true →
      w.runner.state.data = none ∧ w.runner.state.error = none)
    ∧ (w.runner.state.data ≠ none →
      w.runner.state.loading = some false ∧ w.runner.state.error = none)
    ∧ (w.runner.state.error ≠ none →
      w.runner.state.loading = some false ∧ w.runner.state.data = none)
    ∧ ¬(w.runner.state.data ≠ none ∧ w.runner.state.error ≠ none) := by
  obtain ⟨-, -, hdata, herr⟩ := reachable_worldInv h
  refine ⟨?_, fun hd => ⟨(hdata hd).1, (hdata hd).2.1⟩,
    fun he => ⟨(herr he).1, (herr he).2.1⟩, ?_⟩
  · intro hl
    constructor
    · by_contra hd
      have h2 := (hdata hd).1
      rw [hl] at h2
      simp at h2
    · by_contra he
      have h2 := (herr he).1
      rw [hl] at h2
      simp at h2
  · rintro ⟨hd, he⟩
    exact hd (herr he).2.1

/-- A concrete reachable world: fresh instance on client 1, one trigger,
then the call (token 1) succeeds with data 42. -/
def c8World : World Nat Nat :=
  stepResolveOk (stepTrigger (initWorld 1)) 1 42

/-- Witness for C8: the state shapes hold in the concrete reachable world
`c8World` (a settled success with data 42). -/
theorem reachable_state_shapes_witness :
    (c8World.runner.state.loading = some true →
      c8World.runner.state.data = none ∧ c8World.runner.state.error = none)
    ∧ (c8World.runner.state.data ≠ none →
      c8World.runner.state.loading = some false ∧ c8World.runner.state.error = none)
    ∧ (c8World.runner.state.error ≠ none →
      c8World.runner.state.loading = some false ∧ c8World.runner.state.data = none)
    ∧ ¬(c8World.runner.state.data ≠ none ∧ c8World.runner.state.error ≠ none) :=
  reachable_state_shapes c8World
    (Reachable.resolveOk 1 42 (by decide) (Reachable.trigger (Reachable.init 1)))

/-- The missing-client message differs from every document-kind message. -/
theorem contextMessage_ne_kindMessage (doc : DocumentNode) :
    ¬contextAbsentMessage = mutationKindMessage doc := by
  unfold mutationKindMessage
  split <;> decide

/-- Claim C9: constructing with no client handle discoverable in the ambient
context fails synchronously with the missing-client configuration error,
which is distinct from the document-kind validation error. -/
theorem missing_client_rejected {D E : Type} (doc : DocumentNode) :
    construct (D := D) (E := E) none doc = Except.error contextAbsentMessage
    ∧ ¬contextAbsentMessage = mutationKindMessage doc :=
  ⟨rfl, contextMessage_ne_kindMessage doc⟩

/-- Claim C10: when the ambient client is absent and the document is not a
mutation, the error raised is the missing-client one — the constructor
checks the context before classifying the document. -/
theorem missing_client_checked_first {D E : Type} (doc : DocumentNode)
    (h : ¬parser doc = DocumentType.Mutation) :
    construct (D := D) (E := E) none doc = Except.error contextAbsentMessage
    ∧ ¬construct (D := D) (E := E) none doc = Except.error (mutationKindMessage doc) := by
  refine ⟨rfl, fun h2 => contextMessage_ne_kindMessage doc ?_⟩
  rw [show construct (D := D) (E := E) none doc = Except.error contextAbsentMessage from rfl]
    at h2
  exact Except.error.inj h2

/-- Witness for C10: with an absent client and a query document, the
constructor raises the missing-client error, not the document-kind one. -/
theorem missing_client_checked_first_witness :
    construct (D := Nat) (E := Nat) none { kind := DocumentType.Query }
        = Except.error contextAbsentMessage
    ∧ ¬construct (D := Nat) (E := Nat) none { kind := DocumentType.Query }
        = Except.error (mutationKindMessage { kind := DocumentType.Query }) :=
  missing_client_checked_first { kind := DocumentType.Query } (by decide)

end ReactApollo
